import Mathlib

/-!
# Verification of the gig-check event harvesting and reconciliation engine

Shallow embedding of the core of the `gig-check` repository:

* `src/util.ts`            — `normalizeWhitespace`, `findTextSnippets`
* the scraper module       — `getEventId`, `loadNextPage`, `getEventDetails`,
                             `getEventDetailsFromPage`, `DEFAULT_EVENT_FILTERS`,
                             `determineShowRelevance`
* `src/gig-check.ts`       — `findNewEvents`, `updateRelevance`
* `src/types.ts`           — `Event`, `EventsResult`, selector configurations

Pure functions are translated directly.  Functions that drive the browser
(puppeteer `Page`) are translated against an explicit *behaviour* record that
supplies, per step, what the automation capability would have returned
(rows read, button found/visible, wait success, descriptions fetched), so the
control flow of the source is preserved while the DOM itself stays abstract.
-/

/-! ## JavaScript string and truthiness helpers -/

/-- JS `\s` whitespace class members that occur in scraped text
(space, tab, newline, carriage return, vertical tab, form feed). -/
def isJsWhitespace (c : Char) : Bool :=
  c = ' ' || c = '\t' || c = '\n' || c = '\r' || c.toNat = 11 || c.toNat = 12

/-- Collapse each maximal run of whitespace to a single space
(the effect of `replace(/\s+/g, " ")`); `inRun` remembers whether the
previous character was part of a whitespace run. -/
def collapseWsGo : List Char → Bool → List Char
  | [], _ => []
  | c :: rest, inRun =>
    if isJsWhitespace c then
      if inRun then collapseWsGo rest true
      else ' ' :: collapseWsGo rest true
    else c :: collapseWsGo rest false

/-- `trim()` on a character list: drop leading and trailing whitespace. -/
def trimChars (l : List Char) : List Char :=
  ((l.dropWhile isJsWhitespace).reverse.dropWhile isJsWhitespace).reverse

/--
`normalizeWhitespace` from `src/util.ts`:
`input.replace(/\s+/g, " ").trim()` for a string input, `""` for a
nullish input (the parameter is `Nilable<string>`).
-/
def normalizeWhitespace (input : Option String) : String :=
  match input with
  | some s => ⟨trimChars (collapseWsGo s.data false)⟩
  | none => ""

/-- JS string truthiness: `null`/`undefined` and `""` are falsy. -/
def jsTruthyStr (v : Option String) : Bool :=
  match v with
  | some s => s ≠ ""
  | none => false

/-- JS `event.name || ""`: nullish (and empty) strings collapse to `""`. -/
def jsOrEmpty (v : Option String) : String :=
  match v with
  | some s => s
  | none => ""

/-- Rendering of a nilable string inside a JS template literal:
`undefined` renders as `"undefined"` (absent fields in the scraper come from
optional-chaining, hence `undefined` rather than `null`). -/
def jsTemplateOpt (v : Option String) : String :=
  match v with
  | some s => s
  | none => "undefined"

/-- Is `pre` a prefix of `l`? -/
def listIsPrefixOf : List Char → List Char → Bool
  | [], _ => true
  | _ :: _, [] => false
  | a :: as, b :: bs => a = b && listIsPrefixOf as bs

/-- Does `hay` contain `needle` as a contiguous substring?
(JS `String.prototype.includes`.) -/
def listContainsSub (needle : List Char) : List Char → Bool
  | [] => listIsPrefixOf needle []
  | c :: rest => listIsPrefixOf needle (c :: rest) || listContainsSub needle rest

/-- JS `hay.includes(needle)` (case sensitive). -/
def strContains (hay needle : String) : Bool :=
  listContainsSub needle.data hay.data

/-- ASCII lower-casing of one character (the JS `i` regex flag and
`toLowerCase` agree with this on the ASCII-only filter patterns involved). -/
def lowerChar (c : Char) : Char :=
  if 'A' ≤ c ∧ c ≤ 'Z' then Char.ofNat (c.toNat + 32) else c

/-- Case-insensitive substring test (the semantics of an `/.../i` regex whose
pattern is a plain literal, and of the spec's "case-insensitive substring"). -/
def ciContains (hay needle : String) : Bool :=
  listContainsSub (needle.data.map lowerChar) (hay.data.map lowerChar)

/-! ## Data model (`src/types.ts`) -/

/--
`Event` from `src/types.ts`.  `Nilable<string>` fields become `Option String`
(the JS `null`/`undefined` distinction is irrelevant to every claim: no claim
compares a `null` field against an `undefined` one).  `relevance` is
`Nilable<string[]>`, `errors` is `string[] | undefined`, `page` is the
pagination depth that produced the row.
-/
structure Event where
  name : Option String := none
  date : Option String := none
  description : Option String := none
  detailLink : Option String := none
  relevance : Option (List String) := none
  page : Nat := 0
  errors : Option (List String) := none
deriving Repr, DecidableEq

/-- `EventsResult` from `src/types.ts` (`events?: Event[]`,
`errors?: unknown[]` — every value actually pushed is a string). -/
structure EventsResult where
  url : String
  events : Option (List Event) := none
  errors : Option (List String) := none
deriving Repr, DecidableEq

/-- A per-domain description selector (`WebsiteContentSelector` in
`src/types.ts`). -/
structure ContentSelector where
  domain : String
  description : String
  lineup : Option String := none
  artistDescription : Option String := none
deriving Repr, DecidableEq

/-- The selector configuration (`Selectors` in `src/types.ts`): the single-page
fields, plus the two-page fields, which are absent (`none`) for single-page
sites.  The source distinguishes the two variants by the presence of
`detailLink`. -/
structure SelectorsM where
  event : String
  date : String
  name : String
  loadMoreLink : Option String := none
  loadMoreLoader : Option String := none
  detailLink : Option String := none
  description : List ContentSelector := []
deriving Repr, DecidableEq

/-- `isTwoPageSiteSelector`: `(selectors as any).detailLink != null`. -/
def isTwoPageSiteSelector (s : SelectorsM) : Bool :=
  s.detailLink.isSome

/-- `WebsiteConfig` from `src/types.ts`. -/
structure WebsiteConfigM where
  url : String
  selectors : SelectorsM
deriving Repr, DecidableEq

/-! ## `getEventId` (scraper) -/

/-- `getEventId(event)`: the template literal
`` `${event.name}-${event.date}` ``.  The raw (not whitespace-normalized)
fields are concatenated around a plain hyphen. -/
def getEventId (e : Event) : String :=
  jsTemplateOpt e.name ++ "-" ++ jsTemplateOpt e.date

/-! ## `findTextSnippets` (`src/util.ts`) and `determineShowRelevance` -/

/-- First position `≥ pos` (absolute index carried in `pos`) at which `term`
occurs in the remaining `suffix` of the text; `none` when there is none
(JS `indexOf` returning `-1`). -/
def jsIndexOfGo (term : List Char) : List Char → Nat → Option Nat
  | [], pos => if listIsPrefixOf term [] then some pos else none
  | c :: rest, pos =>
    if listIsPrefixOf term (c :: rest) then some pos
    else jsIndexOfGo term rest (pos + 1)

/-- JS `text.indexOf(term, start)` (with `start` already clamped to
`text.length` by dropping). -/
def jsIndexOfFrom (text term : List Char) (start : Nat) : Option Nat :=
  jsIndexOfGo term (text.drop start) (min start text.length)

/--
The scan loop of `findTextSnippets` for one term: find each occurrence from
`startIndex`, then continue from `startIndex + term.length` — so matches of a
term never overlap.  `fuel` bounds the iteration count; `text.length + 1` is
enough for a non-empty term because the scan position strictly increases.
(For an empty term the JS loop never advances and never terminates; no caller
passes an empty search term.)
-/
def collectMatches (text term : List Char) : Nat → Nat → List Nat
  | _, 0 => []
  | startIndex, fuel + 1 =>
    match jsIndexOfFrom text term startIndex with
    | none => []
    | some i => i :: collectMatches text term (i + term.length) fuel

/-- All non-overlapping match positions of `term` in `text`, in scan order. -/
def matchPositions (text term : List Char) : List Nat :=
  collectMatches text term 0 (text.length + 1)

/-- The snippet emitted by `findTextSnippets` for a match of `term` at
position `i`: `contextLength` characters of context either side, `"..."`
markers when truncated inside the text, newlines replaced by spaces, then
whitespace-normalized. -/
def snippetAt (text term : List Char) (contextLength : Nat) (i : Nat) : String :=
  let snippetStart := i - contextLength
  let snippetEnd := min text.length (i + term.length + contextLength)
  let pre := if snippetStart > 0 then "...".data else []
  let suf := if snippetEnd < text.length then "...".data else []
  let middle := (text.drop snippetStart).take (snippetEnd - snippetStart)
  let replaced := (pre ++ middle ++ suf).map (fun c => if c = '\n' then ' ' else c)
  normalizeWhitespace (some ⟨replaced⟩)

/-- `findTextSnippets(text, searchTerms, contextLength)` from `src/util.ts`:
for each term, every non-overlapping occurrence yields one snippet, appended
in term order then scan order. -/
def findTextSnippets (text : String) (searchTerms : List String)
    (contextLength : Nat) : List String :=
  searchTerms.flatMap fun term =>
    (matchPositions text.data term.data).map (snippetAt text.data term.data contextLength)

/--
`determineShowRelevance(terms, description)` from the scraper module calls
`findTextSnippets(description, terms)` WITHOUT the required third
`contextLength` argument.  At runtime `contextLength` is `undefined`, so
`startIndex - contextLength` is `NaN`, `Math.max(0, NaN)` and
`Math.min(text.length, NaN)` are `NaN`, `NaN > 0` and `NaN < text.length` are
both `false` (no `"..."` markers), and `text.slice(NaN, NaN)` is
`text.slice(0, 0) = ""`.  Hence every match emits the empty-string snippet.
The match scan itself is unaffected.
-/
def determineShowRelevance (terms : List String) (description : String) : List String :=
  terms.flatMap fun term =>
    (matchPositions description.data term.data).map (fun _ => "")

/-! ## Run reconciler (`src/gig-check.ts`): `updateRelevance`, `findNewEvents` -/

/-- The cross-run matching predicate used by both `updateRelevance` and
`findNewEvents`: strict equality of `name`, `date` and `detailLink`. -/
def eventMatches (prevEvent event : Event) : Bool :=
  prevEvent.name == event.name && prevEvent.date == event.date &&
    prevEvent.detailLink == event.detailLink

/-- The body of `updateRelevance` for one current event: find the first
matching previous event and copy its `relevance` and `errors` onto the
current event (the source mutates in place; the embedding returns the
updated event). -/
def updateRelevanceEvent (prevEvents : List Event) (event : Event) : Event :=
  match prevEvents.find? (fun prevEvent => eventMatches prevEvent event) with
  | some previousEvent =>
    { event with relevance := previousEvent.relevance, errors := previousEvent.errors }
  | none => event

/-- One iteration of the outer `for (const site of sites)` loop of
`updateRelevance`: find the previous site with the same `url`; if none, the
site is untouched (`continue`); otherwise each event in `site.events ?? []`
is updated in place from its `(name, date, detailLink)` match. -/
def updateRelevanceSite (previous : List EventsResult) (site : EventsResult) : EventsResult :=
  match previous.find? (fun prev => prev.url == site.url) with
  | none => site
  | some previousSite =>
    match site.events with
    | none => site
    | some events =>
      { site with
        events := some (events.map (updateRelevanceEvent (previousSite.events.getD []))) }

/-- `updateRelevance(sites, previous)` from `src/gig-check.ts` (the source
mutates `sites` in place; the embedding returns the updated list). -/
def updateRelevance (sites previous : List EventsResult) : List EventsResult :=
  sites.map (updateRelevanceSite previous)

/-- The per-site body of `findNewEvents`: keep the events with no
`(name, date, detailLink)` match in the previous run's site of the same
`url`; a site with no previous counterpart keeps all its events;
`events: uniqueEvents ?? []` materialises an absent list as `[]`. -/
def findNewEventsSite (previous : List EventsResult) (site : EventsResult) : EventsResult :=
  match previous.find? (fun prev => prev.url == site.url) with
  | none => { site with events := some (site.events.getD []) }
  | some previousSite =>
    let uniqueEvents := (site.events.getD []).filter fun event =>
      !((previousSite.events.getD []).any fun prevEvent => eventMatches prevEvent event)
    { site with events := some uniqueEvents }

/-- `findNewEvents(newest, previous)` from `src/gig-check.ts`. -/
def findNewEvents (newest previous : List EventsResult) : List EventsResult :=
  newest.map (findNewEventsSite previous)

/-! ## Exclusion filter (`testStringOrRegex`, `DEFAULT_EVENT_FILTERS`) -/

/-- A `string | RegExp` filter entry.  A `RegExp` is modelled by its match
test on a string. -/
inductive FilterEntry where
  | str : String → FilterEntry
  | regex : (String → Bool) → FilterEntry

/--
Modelled from the spec: `testStringOrRegex` is brought in by the scraper
from `./util`, but its definition is absent from the provided sources (only
the module reference and the call site exist).  Per the spec (§4.4), an event name "matches
any of a configured exclusion filter (case-insensitive substring or
pattern)": a string entry matches as a case-insensitive substring and a
`RegExp` entry by its test.
-/
def testStringOrRegex (value : String) : FilterEntry → Bool
  | .str s => ciContains value s
  | .regex t => t value

/-- `DEFAULT_EVENT_FILTERS` from the scraper:
`[/private event/i, /cancelled/i, /postponed/i, /open mic/i]` — each is a
literal pattern with the `i` flag, i.e. a case-insensitive substring test. -/
def defaultEventFilters : List FilterEntry :=
  [ .regex (fun s => ciContains s "private event"),
    .regex (fun s => ciContains s "cancelled"),
    .regex (fun s => ciContains s "postponed"),
    .regex (fun s => ciContains s "open mic") ]

/-! ## Detail-resolution driving loop (`getEventDetails`, scraper)

The loop body's external effects are (a) which events are skipped, filtered,
fetched or resolved inline and (b) the per-event field updates.  The model
computes the loop's *step* for each index from the original events list —
faithful because iteration `index` reads only `events[index]`, the indices
strictly increase, and earlier iterations never modify later events.  The
site-level error strings and counters accumulated by the loop do not feed
back into its control flow; the per-fetch behaviour is modelled separately
(`getEventDetailsFromPage` below). -/

/-- JS `findIndex` (`-1` becomes `none`). -/
def jsFindIndex (p : α → Bool) : List α → Option Nat
  | [] => none
  | a :: as => if p a then some 0 else (jsFindIndex p as).map (· + 1)

/-- The resume-offset scan of `getEventDetails`:
`events.findIndex((e) => e.relevance == null && e.errors == null)`. -/
def detailOffset (events : List Event) : Option Nat :=
  jsFindIndex (fun e => e.relevance == none && e.errors == none) events

/-- The indices the loop `for (let index = offset; index < end; index++)`
visits. -/
def detailIndices (offset count : Nat) : List Nat :=
  (List.range count).map (offset + ·)

/-- The index range processed by `getEventDetails`: empty when there are no
events or every event has `relevance` or `errors` set; otherwise
`offset ..< offset + count` with
`count = isTwoPage ? min(limit, remaining) : remaining`. -/
def detailRange (selectors : SelectorsM) (events : List Event) (limit : Nat) : List Nat :=
  match detailOffset events with
  | none => []
  | some offset =>
    let remaining := events.length - offset
    let count := if isTwoPageSiteSelector selectors then min limit remaining else remaining
    detailIndices offset count

/-- What one iteration of the `getEventDetails` loop does with `events[index]`. -/
inductive DetailStep where
  /-- `if (event.relevance) continue` — any array, including `[]`, is truthy. -/
  | skipRelevance (index : Nat)
  /-- name matched the exclusion filter: `event.relevance = []`, no fetch. -/
  | filtered (index : Nat)
  /-- two-page site: `getEventDetailsFromPage` is invoked (a detail-page fetch). -/
  | fetch (index : Nat)
  /-- single-page site with a truthy `description`: relevance computed inline. -/
  | inlineDesc (index : Nat)
  /-- no detail link and no description: error recorded, event untouched. -/
  | noDetail (index : Nat)
deriving Repr, DecidableEq

/-- The guard cascade of one loop iteration, read off the original events
list. -/
def stepAt (selectors : SelectorsM) (filter : List FilterEntry)
    (events : List Event) (index : Nat) : DetailStep :=
  match events.get? index with
  | none => .noDetail index
  | some event =>
    if event.relevance.isSome then .skipRelevance index
    else if filter.any (fun f => testStringOrRegex (jsOrEmpty event.name) f) then
      .filtered index
    else if isTwoPageSiteSelector selectors then .fetch index
    else if jsTruthyStr event.description then .inlineDesc index
    else .noDetail index

/-- The sequence of steps performed by one `getEventDetails` pass. -/
def getEventDetailsSteps (selectors : SelectorsM) (filter : List FilterEntry)
    (events : List Event) (limit : Nat) : List DetailStep :=
  (detailRange selectors events limit).map (stepAt selectors filter events)

/-- The indices whose detail page is fetched during the pass. -/
def fetchedIndices (selectors : SelectorsM) (filter : List FilterEntry)
    (events : List Event) (limit : Nat) : List Nat :=
  (getEventDetailsSteps selectors filter events limit).filterMap fun s =>
    match s with
    | .fetch i => some i
    | _ => none

/-- Map over a list with the element index. -/
def mapWithIndex (f : Nat → α → β) (l : List α) : List β :=
  (l.enum.map fun p => f p.1 p.2)

/-- The events list after one `getEventDetails` pass.  The outcome of a
detail-page fetch depends on the network and is supplied by `fetchOut`;
every other step's effect is fixed by the source. -/
def getEventDetailsResult (selectors : SelectorsM) (filter : List FilterEntry)
    (genres : List String) (limit : Nat) (fetchOut : Nat → Event → Event)
    (events : List Event) : List Event :=
  mapWithIndex
    (fun i e =>
      if (detailRange selectors events limit).contains i then
        match stepAt selectors filter events i with
        | .skipRelevance _ => e
        | .filtered _ => { e with relevance := some [] }
        | .fetch _ => fetchOut i e
        | .inlineDesc _ =>
          { e with relevance := some (determineShowRelevance genres (jsOrEmpty e.description)) }
        | .noDetail _ => e
      else e)
    events

/-! ## Paginated harvest engine (`loadNextPage`, scraper)

`loadNextPage(page, site, timeout, discoveredEvents, depth, maxDepth)` drives
the listing page through "load more" cycles.  The page automation is
abstracted into a `CrawlBehavior`: what the DOM read at a given depth yields
and how the load-more control and the post-click waits behave there.  Each
invocation of `loadNextPage` performs exactly one page read
(`waitForSelector` + `$$eval`); the `pageReads` field of the result counts
them. -/

/-- The automation capability's answers, per recursion depth. -/
structure CrawlBehavior where
  /-- the rows produced by the `$$eval` over `site.selectors.event`. -/
  rowsAt : Nat → List Event
  /-- `page.$(site.selectors.loadMoreLink)` throws. -/
  findButtonThrows : Nat → Bool
  /-- `page.$(...)` returns a non-null handle (when it does not throw). -/
  buttonFound : Nat → Bool
  /-- `loadMoreButton.isVisible()`. -/
  isVisibleAt : Nat → Bool
  /-- the computed-opacity evaluation returns a value `> 0`. -/
  opacityPositiveAt : Nat → Bool
  /-- the post-click wait (loader appear/disappear, or row-count increase)
  completes without throwing. -/
  waitSucceeds : Nat → Bool

/-- What one `loadNextPage` call returns, plus the number of page reads
performed by it and its recursive calls. -/
structure CrawlResult where
  results : List Event
  errors : List String
  pageReads : Nat
deriving Repr, DecidableEq

/-- `` `Could not find load more button on ${site.url}` `` -/
def loadMoreButtonError (url : String) : String :=
  "Could not find load more button on " ++ url

/-- `` `Error waiting for load more loader on ${site.url}: ...` ``
(the appended exception text is abstracted away). -/
def loaderWaitError (url : String) : String :=
  "Error waiting for load more loader on " ++ url

/-- `` `Error waiting for more events to load on ${site.url}: ...` `` -/
def rowCountWaitError (url : String) : String :=
  "Error waiting for more events to load on " ++ url

/--
`loadNextPage` from the scraper.  Control flow follows the source line by
line:

* one page read (`waitForSelector` + `$$eval`) yields `resultsOnPage`;
* `depthExceeded = maxDepth == null ? false : depth >= maxDepth` — `maxDepth`
  is never `null` at any call site (the only caller uses the default `6`),
  so it is a `Nat` here;
* the load-more block runs when `site.selectors.loadMoreLink` is truthy and
  the depth is not exceeded; a throwing `page.$` records an error and leaves
  the button `null`; the button must be visible with positive opacity;
* after the click, the wait strategy is the loader appear/disappear wait when
  `loadMoreLoader` is configured, the row-count wait otherwise; a wait
  timeout pushes an error message onto the local `errors` — but the source
  then recurses unconditionally and executes `resultsOnPage =
  moreResults.results; errors = moreResults.errors;`, so both the rows and
  the errors of the current pass (including any recorded wait-timeout
  message) are replaced by the recursive call's;
* otherwise the current pass's rows and errors are returned.
-/
def loadNextPage (beh : CrawlBehavior) (site : WebsiteConfigM)
    (discoveredEvents : List String) (depth maxDepth : Nat) : CrawlResult :=
  let resultsOnPage := beh.rowsAt depth
  let errors : List String :=
    if beh.findButtonThrows depth then [loadMoreButtonError site.url] else []
  if h : jsTruthyStr site.selectors.loadMoreLink = true ∧ depth < maxDepth then
    let buttonPresent := !beh.findButtonThrows depth && beh.buttonFound depth
    if buttonPresent then
      let visible := beh.isVisibleAt depth && beh.opacityPositiveAt depth
      if visible then
        -- click; then wait.  On a wait timeout the source pushes
        -- `loaderWaitError`/`rowCountWaitError` onto `errors`, but that list
        -- is overwritten by `errors = moreResults.errors` below, so the
        -- recorded message never reaches the returned result.
        let newEvents := resultsOnPage.filter
          (fun event => !(discoveredEvents.contains (getEventId event)))
        let eventIds := discoveredEvents ++ newEvents.map getEventId
        let moreResults := loadNextPage beh site eventIds (depth + 1) maxDepth
        { results := moreResults.results
          errors := moreResults.errors
          pageReads := moreResults.pageReads + 1 }
      else { results := resultsOnPage, errors := errors, pageReads := 1 }
    else { results := resultsOnPage, errors := errors, pageReads := 1 }
  else { results := resultsOnPage, errors := errors, pageReads := 1 }
termination_by maxDepth - depth
decreasing_by omega

/-! ## Two-phase detail resolver (`getEventDetailsFromPage`, scraper)

The per-event fetch is modelled against a `DetailFetchBehavior` describing
what the network/DOM would yield.  `pagesOpened`/`pagesClosed` instrument the
`browser.newPage()` / `page.close()` calls on the path taken. -/

/-- Outcome of fetching one lineup (artist) link. -/
inductive ArtistFetchOutcome where
  /-- the inner `try` throws (navigation failure or selector timeout). -/
  | failed (err : String)
  /-- the artist description text (`$eval` result), possibly absent/empty. -/
  | ok (desc : Option String)
deriving Repr

/-- The automation capability's answers for one `getEventDetailsFromPage`
call. -/
structure DetailFetchBehavior where
  /-- `page.goto(detailLink)`, `waitForSelector(selector.description)` and the
  description `$eval` all succeed (otherwise the outer `catch` runs). -/
  mainFetchOk : Bool
  /-- `String(error)` for the outer-catch case. -/
  mainFetchError : String := ""
  /-- the description `$eval` result (`textContent?.trim()`). -/
  description : Option String := none
  /-- the hrefs from the lineup `$$eval` (`getAttribute("href")`, nullable). -/
  lineupLinks : List (Option String) := []
  /-- per lineup-link index, the fetch outcome. -/
  artistFetch : Nat → ArtistFetchOutcome := fun _ => .ok none

/-- What one `getEventDetailsFromPage` call produces: its return value
(`success`, `errorCount`), the updated site- and event-level error lists, the
updated `relevance`, the collected description texts, and the page-context
instrumentation. -/
structure DetailFetchResult where
  success : Bool
  errorCount : Nat
  siteErrors : List String
  eventErrors : Option (List String)
  relevance : Option (List String)
  descriptions : List String
  pagesOpened : Nat
  pagesClosed : Nat
deriving Repr, DecidableEq

/-- `` `Counld not find a description selector for event (${index}) ...` ``
(the source's typo preserved). -/
def noSelectorMsg (index : Nat) (e : Event) : String :=
  "Counld not find a description selector for event (" ++ toString index ++ ") "
    ++ jsTemplateOpt e.name ++ " on " ++ jsTemplateOpt e.date ++ " at "
    ++ jsTemplateOpt e.detailLink

/-- `` `Error fetching lineup description for event (${index}) ... at ${link}: ...` `` -/
def lineupErrorMsg (index : Nat) (e : Event) (link : String) (err : String) : String :=
  "Error fetching lineup description for event (" ++ toString index ++ ") "
    ++ jsTemplateOpt e.name ++ " on " ++ jsTemplateOpt e.date ++ " at " ++ link
    ++ ": " ++ err

/-- `` `No description found for event (${index}) ... at ${url}` `` -/
def noDescriptionMsg (index : Nat) (e : Event) (url : String) : String :=
  "No description found for event (" ++ toString index ++ ") "
    ++ jsTemplateOpt e.name ++ " on " ++ jsTemplateOpt e.date ++ " at " ++ url

/-- `` `Error fetching event (${index}) ... at ${detailLink ?? url}: ...` `` -/
def fetchErrorMsg (index : Nat) (e : Event) (url : String) (err : String) : String :=
  "Error fetching event (" ++ toString index ++ ") " ++ jsTemplateOpt e.name
    ++ " on " ++ jsTemplateOpt e.date ++ " at "
    ++ (match e.detailLink with | some l => l | none => url) ++ ": " ++ err

/-- The selector lookup:
`websiteConfig.selectors.description.find((s) => event.detailLink?.includes(s.domain))`. -/
def findSelector (descriptions : List ContentSelector) (detailLink : Option String) :
    Option ContentSelector :=
  descriptions.find? fun s =>
    match detailLink with
    | some l => strContains l s.domain
    | none => false

/-- The lineup loop of `getEventDetailsFromPage`: starting from the collected
`descriptions`, walk the lineup links in order; a nullish/empty link or an
absent `artistDescription` selector is skipped (`continue`); a failed fetch
appends a site-level message and increments the error count; a successful
fetch with truthy text appends the text.  Returns
`(descriptions, lineup error messages, error count)`. -/
def processLineup (beh : DetailFetchBehavior) (event : Event) (index : Nat)
    (artistSel : Option String) :
    Nat → List (Option String) → List String → (List String × List String × Nat)
  | _, [], acc => (acc, [], 0)
  | i, link :: rest, acc =>
    if !(jsTruthyStr link) || artistSel.isNone then
      processLineup beh event index artistSel (i + 1) rest acc
    else
      match beh.artistFetch i with
      | .failed err =>
        let (ds, es, n) := processLineup beh event index artistSel (i + 1) rest acc
        (ds, lineupErrorMsg index event (jsOrEmpty link) err :: es, n + 1)
      | .ok d =>
        let acc := if jsTruthyStr d then acc ++ [jsOrEmpty d] else acc
        processLineup beh event index artistSel (i + 1) rest acc

/-- The `descriptions` list of `getEventDetailsFromPage` before the lineup
loop: the primary description when truthy, else nothing. -/
def detailDescriptions0 (beh : DetailFetchBehavior) : List String :=
  if jsTruthyStr beh.description then [jsOrEmpty beh.description] else []

/-- The lineup phase of `getEventDetailsFromPage`: when the matched selector
configures a `lineup`, run the lineup loop over the primary descriptions;
otherwise the primary descriptions pass through with no errors.  Returns
`(descriptions, lineup error messages, lineup error count)`. -/
def detailLineupOut (beh : DetailFetchBehavior) (selector : ContentSelector)
    (event : Event) (index : Nat) : List String × List String × Nat :=
  if jsTruthyStr selector.lineup then
    processLineup beh event index selector.artistDescription 0
      beh.lineupLinks (detailDescriptions0 beh)
  else (detailDescriptions0 beh, [], 0)

/--
`getEventDetailsFromPage(browser, band, websiteConfig, event, eventSummaries,
index, timeout)` from the scraper:

1. selector lookup by domain; absence is a terminal per-event failure
   *before* any page is opened;
2. `browser.newPage()` (one page context opened), navigation, wait, and the
   description `$eval`; a throw lands in the outer `catch`, which records a
   site-level and an event-level error and returns — the `page` variable is
   scoped inside the `try` and the `catch` has no `close` call, so the open
   page context is not released on this path;
3. the lineup loop (when `selector.lineup` is configured), whose failures are
   non-fatal;
4. with at least one description: `relevance` is computed by
   `determineShowRelevance(band.genres, descriptions.join("\n"))`, the page
   is closed, success; with none: an error is recorded at site and event
   level, the page is closed, failure.
-/
def getEventDetailsFromPage (beh : DetailFetchBehavior) (genres : List String)
    (selectors : SelectorsM) (event : Event) (siteUrl : String)
    (siteErrors : List String) (index : Nat) : DetailFetchResult :=
  match findSelector selectors.description event.detailLink with
  | none =>
    { success := false, errorCount := 1
      siteErrors := siteErrors ++ [noSelectorMsg index event]
      eventErrors := event.errors, relevance := event.relevance
      descriptions := [], pagesOpened := 0, pagesClosed := 0 }
  | some selector =>
    if beh.mainFetchOk then
      let lineupOut := detailLineupOut beh selector event index
      let descriptions := lineupOut.1
      let lineupErrors := lineupOut.2.1
      let lineupErrorCount := lineupOut.2.2
      if descriptions.length > 0 then
        { success := true, errorCount := lineupErrorCount
          siteErrors := siteErrors ++ lineupErrors
          eventErrors := event.errors
          relevance := some (determineShowRelevance genres (String.intercalate "\n" descriptions))
          descriptions := descriptions, pagesOpened := 1, pagesClosed := 1 }
      else
        { success := false, errorCount := lineupErrorCount + 1
          siteErrors := siteErrors ++ lineupErrors ++ [noDescriptionMsg index event siteUrl]
          eventErrors := some ((event.errors.getD []) ++ [noDescriptionMsg index event siteUrl])
          relevance := event.relevance
          descriptions := [], pagesOpened := 1, pagesClosed := 1 }
    else
      { success := false, errorCount := 1
        siteErrors := siteErrors ++ [fetchErrorMsg index event siteUrl beh.mainFetchError]
        eventErrors := some ((event.errors.getD []) ++ [beh.mainFetchError])
        relevance := event.relevance
        descriptions := [], pagesOpened := 1, pagesClosed := 0 }

/-! ## Theorems

Helper lemmas come first; the claim theorems follow, one per claim, each with
a doc comment naming the claim. -/

/-- Splitting a separator-joined pair is unambiguous when the separator does
not occur in the left components. -/
theorem append_sep_inj (a : List Char) :
    ∀ (c b d : List Char), '-' ∉ a → '-' ∉ c →
      a ++ '-' :: b = c ++ '-' :: d → a = c ∧ b = d := by
  induction a with
  | nil =>
    intro c b d _ hc h
    cases c with
    | nil => simpa using h
    | cons y ys =>
      exfalso
      simp only [List.nil_append, List.cons_append, List.cons.injEq] at h
      apply hc
      rw [h.1]
      exact List.mem_cons_self y ys
  | cons x xs ih =>
    intro c b d ha hc h
    cases c with
    | nil =>
      exfalso
      simp only [List.nil_append, List.cons_append, List.cons.injEq] at h
      apply ha
      rw [← h.1]
      exact List.mem_cons_self x xs
    | cons y ys =>
      simp only [List.cons_append, List.cons.injEq] at h
      obtain ⟨hxy, hrest⟩ := h
      have := ih ys b d (fun hm => ha (List.mem_cons_of_mem x hm))
        (fun hm => hc (List.mem_cons_of_mem y hm)) hrest
      exact ⟨by simp [hxy, this.1], this.2⟩

/-- `getEventId` at the character level: raw name, `'-'`, raw date. -/
theorem getEventId_data (e : Event) :
    (getEventId e).data =
      (jsTemplateOpt e.name).data ++ '-' :: (jsTemplateOpt e.date).data := by
  simp [getEventId, String.data_append]

/--
C7 (counterexample): the claim fails on the code in both directions.
`getEventId` is `` `${event.name}-${event.date}` `` on the *raw* fields:
(1) the separator `'-'` does occur in normal text, so the distinct normalized
pairs `("a-b", "c")` and `("a", "b-c")` collide on the key `"a-b-c"`;
(2) the fields are not whitespace-normalized by the key, so names equal up to
whitespace (`"a  b"` vs `"a b"`) produce different keys.
-/
theorem getEventId_claim_counterexample :
    (getEventId { name := some "a-b", date := some "c" } =
        getEventId { name := some "a", date := some "b-c" } ∧
      ¬(normalizeWhitespace (some "a-b") = normalizeWhitespace (some "a") ∧
        normalizeWhitespace (some "c") = normalizeWhitespace (some "b-c"))) ∧
    (normalizeWhitespace (some "a  b") = normalizeWhitespace (some "a b") ∧
      normalizeWhitespace (some "c") = normalizeWhitespace (some "c") ∧
      getEventId { name := some "a  b", date := some "c" } ≠
        getEventId { name := some "a b", date := some "c" }) := by
  decide

/--
C7 (amended): the event identity key is the concatenation of the *raw* name
and date joined by `"-"`.  Two events with equal raw name and date produce
equal keys, and when the rendered names contain no `'-'` the key determines
the rendered `(name, date)` pair; names or dates differing only in
whitespace, or names containing `'-'`, are not covered (see the
counterexample).
-/
theorem getEventId_amended (e1 e2 : Event)
    (h1 : '-' ∉ (jsTemplateOpt e1.name).data)
    (h2 : '-' ∉ (jsTemplateOpt e2.name).data) :
    (e1.name = e2.name ∧ e1.date = e2.date → getEventId e1 = getEventId e2) ∧
    (getEventId e1 = getEventId e2 →
      jsTemplateOpt e1.name = jsTemplateOpt e2.name ∧
        jsTemplateOpt e1.date = jsTemplateOpt e2.date) := by
  constructor
  · rintro ⟨hn, hd⟩
    simp [getEventId, hn, hd]
  · intro h
    have hd : (getEventId e1).data = (getEventId e2).data := by rw [h]
    rw [getEventId_data, getEventId_data] at hd
    have := append_sep_inj _ _ _ _ h1 h2 hd
    exact ⟨String.ext this.1, String.ext this.2⟩

/-- Witness for C7's amended theorem at a concrete input. -/
theorem getEventId_amended_witness :
    ('-' ∉ (jsTemplateOpt (some "Foo Band")).data) ∧
    ('-' ∉ (jsTemplateOpt (some "Bar Band")).data) ∧
    ((getEventId { name := some "Foo Band", date := some "May 1" } =
        getEventId { name := some "Bar Band", date := some "May 1" }) →
      jsTemplateOpt (some ("Foo Band" : String)) = jsTemplateOpt (some "Bar Band") ∧
        jsTemplateOpt (some ("May 1" : String)) = jsTemplateOpt (some "May 1")) :=
  ⟨by decide, by decide,
    fun h =>
      (getEventId_amended { name := some "Foo Band", date := some "May 1" }
        { name := some "Bar Band", date := some "May 1" } (by decide) (by decide)).2 h⟩

/-- The reconciliation match only reads `name`, `date` and `detailLink`, so
overwriting `relevance`/`errors` does not change who matches. -/
theorem eventMatches_update (pe e : Event) (r er : Option (List String)) :
    eventMatches pe { e with relevance := r, errors := er } = eventMatches pe e := by
  simp [eventMatches]

/-- Carrying relevance/errors forward twice from the same previous events is
the same as doing it once. -/
theorem updateRelevanceEvent_idem (prevEvents : List Event) (e : Event) :
    updateRelevanceEvent prevEvents (updateRelevanceEvent prevEvents e) =
      updateRelevanceEvent prevEvents e := by
  unfold updateRelevanceEvent
  cases h : List.find? (fun prevEvent => eventMatches prevEvent e) prevEvents with
  | none => simp [h]
  | some pe =>
    simp only [h]
    have hpred :
        (fun prevEvent =>
            eventMatches prevEvent { e with relevance := pe.relevance, errors := pe.errors }) =
          fun prevEvent => eventMatches prevEvent e := by
      funext prevEvent
      exact eventMatches_update prevEvent e pe.relevance pe.errors
    rw [hpred, h]

/-- `updateRelevanceSite` never changes a site's `url`. -/
theorem updateRelevanceSite_url (previous : List EventsResult) (site : EventsResult) :
    (updateRelevanceSite previous site).url = site.url := by
  unfold updateRelevanceSite
  cases previous.find? (fun prev => prev.url == site.url) with
  | none => rfl
  | some previousSite =>
    cases site.events with
    | none => rfl
    | some events => rfl

/-- Per-site idempotence of the relevance carry-forward. -/
theorem updateRelevanceSite_idem (previous : List EventsResult) (site : EventsResult) :
    updateRelevanceSite previous (updateRelevanceSite previous site) =
      updateRelevanceSite previous site := by
  cases h : previous.find? (fun prev => prev.url == site.url) with
  | none =>
    have hs : updateRelevanceSite previous site = site := by
      unfold updateRelevanceSite; rw [h]
    rw [hs, hs]
  | some previousSite =>
    cases he : site.events with
    | none =>
      have hs : updateRelevanceSite previous site = site := by
        unfold updateRelevanceSite; rw [h, he]
      rw [hs, hs]
    | some events =>
      have hs : updateRelevanceSite previous site =
          { site with
            events := some (events.map (updateRelevanceEvent (previousSite.events.getD []))) } := by
        unfold updateRelevanceSite; rw [h, he]
      rw [hs]
      unfold updateRelevanceSite
      rw [show ({ site with
            events := some (events.map (updateRelevanceEvent (previousSite.events.getD []))) }
            : EventsResult).url = site.url from rfl, h]
      simp [List.map_map, Function.comp_def, updateRelevanceEvent_idem]

/--
C5: reconciliation is idempotent.  Applying the relevance/errors
carry-forward (`updateRelevance`) a second time with the same previous input
leaves the sites unchanged — the same carried-forward relevance values — and
therefore the new-events delta computed by `findNewEvents` from the
reconciled sites and the same previous input is also unchanged.
-/
theorem reconciler_idempotent (sites previous : List EventsResult) :
    updateRelevance (updateRelevance sites previous) previous =
      updateRelevance sites previous ∧
    findNewEvents (updateRelevance (updateRelevance sites previous) previous) previous =
      findNewEvents (updateRelevance sites previous) previous := by
  have main : updateRelevance (updateRelevance sites previous) previous =
      updateRelevance sites previous := by
    unfold updateRelevance
    rw [List.map_map]
    exact List.map_congr_left fun site _ => updateRelevanceSite_idem previous site
  exact ⟨main, by rw [main]⟩

/-- Characterisation of `findIndex`: a `some k` result means the element at
`k` satisfies the predicate and nothing before it does. -/
theorem jsFindIndex_spec {α : Type} (p : α → Bool) :
    ∀ (l : List α) (k : Nat), jsFindIndex p l = some k →
      (∃ a, l.get? k = some a ∧ p a = true) ∧
      (∀ j a, j < k → l.get? j = some a → p a = false) := by
  intro l
  induction l with
  | nil => intro k h; simp [jsFindIndex] at h
  | cons a as ih =>
    intro k h
    by_cases hp : p a = true
    · have hk : k = 0 := by
        unfold jsFindIndex at h
        rw [if_pos hp] at h
        exact (Option.some.inj h).symm
      subst hk
      exact ⟨⟨a, rfl, hp⟩, fun j b hj => by omega⟩
    · have h2 : (jsFindIndex p as).map (· + 1) = some k := by
        unfold jsFindIndex at h
        rwa [if_neg hp] at h
      rw [Option.map_eq_some'] at h2
      obtain ⟨k2, hk2, hk⟩ := h2
      subst hk
      obtain ⟨⟨b, hb, hpb⟩, hbefore⟩ := ih k2 hk2
      refine ⟨⟨b, by simpa using hb, hpb⟩, ?_⟩
      intro j c hj hc
      match j with
      | 0 =>
        simp at hc
        simpa [← hc] using hp
      | j2 + 1 => exact hbefore j2 c (by omega) (by simpa using hc)

/-- The index carried by a `DetailStep`. -/
def stepIndexOf : DetailStep → Nat
  | .skipRelevance i => i
  | .filtered i => i
  | .fetch i => i
  | .inlineDesc i => i
  | .noDetail i => i

/-- `stepAt` tags the step with the index it was computed for. -/
theorem stepIndexOf_stepAt (selectors : SelectorsM) (filter : List FilterEntry)
    (events : List Event) (index : Nat) :
    stepIndexOf (stepAt selectors filter events index) = index := by
  unfold stepAt
  cases events.get? index with
  | none => rfl
  | some event =>
    by_cases h1 : event.relevance.isSome = true <;>
      by_cases h2 : (filter.any fun f => testStringOrRegex (jsOrEmpty event.name) f) = true <;>
        by_cases h3 : isTwoPageSiteSelector selectors = true <;>
          by_cases h4 : jsTruthyStr event.description = true <;>
            simp [h1, h2, h3, h4, stepIndexOf]

/-- Every index in the processed range lies at or after the resume offset. -/
theorem mem_detailRange_offset_le (selectors : SelectorsM) (events : List Event)
    (limit i : Nat) (h : i ∈ detailRange selectors events limit) :
    ∃ k, detailOffset events = some k ∧ k ≤ i := by
  unfold detailRange at h
  cases hk : detailOffset events with
  | none => rw [hk] at h; simp at h
  | some k =>
    rw [hk] at h
    simp only [detailIndices, List.mem_map, List.mem_range] at h
    obtain ⟨m, _, rfl⟩ := h
    exact ⟨k, rfl, by omega⟩

/-- A fetched index is in the processed range, and its loop iteration is the
fetch branch. -/
theorem mem_fetchedIndices_elim (selectors : SelectorsM) (filter : List FilterEntry)
    (events : List Event) (limit i : Nat)
    (h : i ∈ fetchedIndices selectors filter events limit) :
    i ∈ detailRange selectors events limit ∧
      stepAt selectors filter events i = .fetch i := by
  unfold fetchedIndices getEventDetailsSteps at h
  rw [List.mem_filterMap] at h
  obtain ⟨s, hs, hmatch⟩ := h
  rw [List.mem_map] at hs
  obtain ⟨j, hj, rfl⟩ := hs
  have hfetch : stepAt selectors filter events j = .fetch i := by
    cases hstep : stepAt selectors filter events j <;> simp_all
  have : j = i := by
    have := stepIndexOf_stepAt selectors filter events j
    rw [hfetch] at this
    simpa [stepIndexOf] using this.symm
  subst this
  exact ⟨hj, hfetch⟩

/--
C2: the detail pass starts at the resume offset — the first index whose
`relevance` is unset and whose `errors` is unset.  `detailOffset` returns the
first such index (nothing before it has both fields unset), and every index
whose detail page is fetched in the pass lies at or after it; in particular a
prior run's events `0..offset-1` are not re-fetched.
-/
theorem getEventDetails_resume_offset (events : List Event) (k : Nat)
    (h : detailOffset events = some k) :
    (∃ e, events.get? k = some e ∧ e.relevance = none ∧ e.errors = none) ∧
    (∀ j e, j < k → events.get? j = some e →
      ¬(e.relevance = none ∧ e.errors = none)) ∧
    (∀ selectors filter limit i,
      i ∈ fetchedIndices selectors filter events limit → k ≤ i) := by
  unfold detailOffset at h
  obtain ⟨⟨e, he, hpe⟩, hbefore⟩ :=
    jsFindIndex_spec (fun e => e.relevance == none && e.errors == none) events k h
  refine ⟨⟨e, he, ?_⟩, ?_, ?_⟩
  · simpa using hpe
  · intro j e2 hj hget hcontra
    have := hbefore j e2 hj hget
    simp [hcontra.1, hcontra.2] at this
  · intro selectors filter limit i hi
    obtain ⟨hrange, _⟩ := mem_fetchedIndices_elim selectors filter events limit i hi
    obtain ⟨k2, hk2, hle⟩ := mem_detailRange_offset_le selectors events limit i hrange
    rw [show detailOffset events = jsFindIndex
          (fun e => e.relevance == none && e.errors == none) events from rfl, h] at hk2
    have : k = k2 := by injection hk2
    omega

/-- An event already resolved (relevance set). -/
def evResolved : Event :=
  { name := some "Done Show", date := some "May 1", detailLink := some "https://x.test/1",
    relevance := some ["...funk..."] }

/-- An event that failed on a prior run (non-empty `errors`, no relevance). -/
def evErrored : Event :=
  { name := some "Broken Show", date := some "May 2", detailLink := some "https://x.test/2",
    errors := some ["boom"] }

/-- An event not yet evaluated (both fields unset). -/
def evFresh : Event :=
  { name := some "Fresh Show", date := some "May 3", detailLink := some "https://x.test/3" }

/-- A two-page selector configuration (a `detailLink` selector is present). -/
def selsTwoPage : SelectorsM :=
  { event := ".event", date := ".date", name := ".name", detailLink := some ".link",
    description := [{ domain := "x.test", description := ".desc" }] }

/-- The spec's concrete scenario for C2: events `0..2` resolved, event `3`
errored, event `4` untouched. -/
def eventsResumeScenario : List Event :=
  [evResolved, evResolved, evResolved, evErrored, evFresh]

/-- Witness for C2: on the spec's scenario the resume offset is index 4 and
no earlier index is fetched. -/
theorem getEventDetails_resume_offset_witness :
    detailOffset eventsResumeScenario = some 4 ∧
    ((∃ e, eventsResumeScenario.get? 4 = some e ∧ e.relevance = none ∧ e.errors = none) ∧
     (∀ j e, j < 4 → eventsResumeScenario.get? j = some e →
       ¬(e.relevance = none ∧ e.errors = none)) ∧
     (∀ selectors filter limit i,
       i ∈ fetchedIndices selectors filter eventsResumeScenario limit → 4 ≤ i)) :=
  ⟨by decide, getEventDetails_resume_offset eventsResumeScenario 4 (by decide)⟩

/--
C3 (counterexample): an event with a non-empty `errors` list and unset
`relevance` *is* fetched again when it sits at or after the resume offset.
Here `evFresh` (index 0, both fields unset) makes the resume offset 0, and
the errored `evErrored` at index 1 is inside the processed range; the
per-event guard `if (event.relevance) continue` checks only `relevance`,
so index 1 is fetched even though `errors = ["boom"]`.
-/
theorem errored_event_refetched_counterexample :
    evErrored.errors = some ["boom"] ∧ evErrored.relevance = none ∧
    [evFresh, evErrored].get? 1 = some evErrored ∧
    1 ∈ fetchedIndices selsTwoPage defaultEventFilters [evFresh, evErrored] 5 := by
  decide

/--
C3 (amended): an event with non-empty `errors` is protected from re-fetching
only by the resume-offset computation, not by a per-event guard: no index
below the resume offset is ever fetched, and the resume offset itself never
points at an event with `errors` set — but an errored event with unset
`relevance` at or after the offset is fetched again (see the
counterexample).
-/
theorem errored_event_skipped_before_offset (selectors : SelectorsM)
    (filter : List FilterEntry) (limit : Nat) (events : List Event) (k : Nat)
    (hk : detailOffset events = some k) :
    (∀ i, i < k → i ∉ fetchedIndices selectors filter events limit) ∧
    (∀ e, events.get? k = some e → e.errors = none) := by
  constructor
  · intro i hik hmem
    obtain ⟨hrange, _⟩ := mem_fetchedIndices_elim selectors filter events limit i hmem
    obtain ⟨k2, hk2, hle⟩ := mem_detailRange_offset_le selectors events limit i hrange
    rw [hk] at hk2
    have : k = k2 := by injection hk2
    omega
  · intro e he
    unfold detailOffset at hk
    obtain ⟨⟨e2, he2, hpe2⟩, _⟩ :=
      jsFindIndex_spec (fun e => e.relevance == none && e.errors == none) events k hk
    rw [he] at he2
    have : e = e2 := by injection he2
    subst this
    simp only [Bool.and_eq_true, beq_iff_eq] at hpe2
    exact hpe2.2

/-- Witness for C3's amended theorem: with the errored event *before* the
resume offset (offset 1), index 0 is not fetched and the offset does not
point at an errored event. -/
theorem errored_event_skipped_before_offset_witness :
    detailOffset [evErrored, evFresh] = some 1 ∧
    0 ∉ fetchedIndices selsTwoPage defaultEventFilters [evErrored, evFresh] 5 ∧
    (∀ e, [evErrored, evFresh].get? 1 = some e → e.errors = none) := by
  refine ⟨by decide, ?_, ?_⟩
  · exact (errored_event_skipped_before_offset selsTwoPage defaultEventFilters 5
      [evErrored, evFresh] 1 (by decide)).1 0 (by decide)
  · exact (errored_event_skipped_before_offset selsTwoPage defaultEventFilters 5
      [evErrored, evFresh] 1 (by decide)).2

/-- `mapWithIndex` at an index applies the function to the original element. -/
theorem mapWithIndex_get? (f : Nat → α → β) (l : List α) (i : Nat) :
    (mapWithIndex f l).get? i = (l.get? i).map (f i) := by
  simp only [mapWithIndex, List.get?_eq_getElem?, List.getElem?_map,
    List.getElem?_enum, Option.map_map]
  cases l[i]? <;> rfl

/--
C8: an event in the processed range whose `relevance` is unset and whose name
matches the exclusion filter is short-circuited: its loop iteration is the
`filtered` branch, its index is never fetched (no page fetch), the pass
rewrites it to `relevance = []`, and with an explicit empty relevance it no
longer satisfies the resume-offset predicate
(`relevance == null && errors == null`) — it counts as resolved on later
runs.  (`testStringOrRegex` is modelled from the spec: its definition is
absent from the provided sources.)
-/
theorem filter_short_circuit (selectors : SelectorsM) (filter : List FilterEntry)
    (genres : List String) (limit : Nat) (fetchOut : Nat → Event → Event)
    (events : List Event) (i : Nat) (e : Event)
    (he : events.get? i = some e)
    (hrel : e.relevance = none)
    (hmatch : (filter.any fun f => testStringOrRegex (jsOrEmpty e.name) f) = true)
    (hin : i ∈ detailRange selectors events limit) :
    stepAt selectors filter events i = .filtered i ∧
    i ∉ fetchedIndices selectors filter events limit ∧
    (getEventDetailsResult selectors filter genres limit fetchOut events).get? i =
      some { e with relevance := some [] } ∧
    (({ e with relevance := some ([] : List String) }).relevance == none &&
      ({ e with relevance := some ([] : List String) }).errors == none) = false := by
  have hstep : stepAt selectors filter events i = .filtered i := by
    unfold stepAt
    rw [he]
    simp [hrel, hmatch]
  refine ⟨hstep, ?_, ?_, by simp⟩
  · intro hmem
    obtain ⟨_, hfetch⟩ :=
      mem_fetchedIndices_elim selectors filter events limit i hmem
    rw [hstep] at hfetch
    exact DetailStep.noConfusion hfetch
  · unfold getEventDetailsResult
    rw [mapWithIndex_get?, he]
    have hcontains : (detailRange selectors events limit).contains i = true := by
      simpa using hin
    simp only [hcontains, hstep, Option.map_some']
    simp only [if_true, Bool.true_eq]

/-- The spec's concrete C8 scenario: filter entry `"Open Mic"`, event named
`"Tuesday Open Mic Night"`. -/
def openMicEvent : Event :=
  { name := some "Tuesday Open Mic Night", date := some "May 6",
    detailLink := some "https://x.test/6" }

/-- Witness for C8 on the spec's scenario. -/
theorem filter_short_circuit_witness :
    stepAt selsTwoPage [.str "Open Mic"] [openMicEvent] 0 = .filtered 0 ∧
    0 ∉ fetchedIndices selsTwoPage [.str "Open Mic"] [openMicEvent] 5 ∧
    (getEventDetailsResult selsTwoPage [.str "Open Mic"] ["funk"] 5
        (fun _ e => e) [openMicEvent]).get? 0 =
      some { openMicEvent with relevance := some [] } ∧
    (({ openMicEvent with relevance := some ([] : List String) }).relevance == none &&
      ({ openMicEvent with relevance := some ([] : List String) }).errors == none) = false :=
  filter_short_circuit selsTwoPage [.str "Open Mic"] ["funk"] 5 (fun _ e => e)
    [openMicEvent] 0 openMicEvent (by decide) (by decide) (by decide) (by decide)

/-- The page-read bound, by induction on the remaining depth budget
`maxDepth - depth`: each recursive call increases `depth` by 1, and the
recursion guard requires `depth < maxDepth`. -/
theorem loadNextPage_reads_le (beh : CrawlBehavior) (site : WebsiteConfigM) :
    ∀ (fuel depth : Nat) (discovered : List String) (maxDepth : Nat),
      maxDepth - depth ≤ fuel →
      (loadNextPage beh site discovered depth maxDepth).pageReads ≤ fuel + 1 := by
  intro fuel
  induction fuel with
  | zero =>
    intro depth discovered maxDepth hf
    have hnd : ¬(jsTruthyStr site.selectors.loadMoreLink = true ∧ depth < maxDepth) :=
      fun h => by omega
    rw [loadNextPage.eq_def]
    simp [hnd]
  | succ n ih =>
    intro depth discovered maxDepth hf
    by_cases hcond : jsTruthyStr site.selectors.loadMoreLink = true ∧ depth < maxDepth
    · rw [loadNextPage.eq_def]
      simp only []
      rw [dif_pos hcond]
      by_cases hbp : (!beh.findButtonThrows depth && beh.buttonFound depth) = true
      · rw [if_pos hbp]
        by_cases hv : (beh.isVisibleAt depth && beh.opacityPositiveAt depth) = true
        · rw [if_pos hv]
          exact Nat.add_le_add_right (ih (depth + 1) _ maxDepth (by omega)) 1
        · rw [if_neg hv]; simp
      · rw [if_neg hbp]; simp
    · rw [loadNextPage.eq_def]
      simp [hcond]

/--
C1: harvest termination and page-read bound.  For every site configuration
and every behaviour of the load-more control (`CrawlBehavior` is universally
quantified, including an always-found, always-visible, always-clickable
button that never yields new rows), `loadNextPage` performs at most
`maxDepth - depth + 1` page reads — at most `maxDepth + 1` from the initial
`depth = 0` — and performs exactly one page read (no recursion) once
`depth ≥ maxDepth`.  Each recursive call passes `depth + 1` by definition of
`loadNextPage`.  Totality of `loadNextPage` (termination) is established by
its definition, whose recursion is well-founded on `maxDepth - depth`.
-/
theorem loadNextPage_depth_bound (beh : CrawlBehavior) (site : WebsiteConfigM)
    (discovered : List String) (depth maxDepth k : Nat) :
    (loadNextPage beh site discovered depth maxDepth).pageReads ≤ (maxDepth - depth) + 1 ∧
    (loadNextPage beh site discovered 0 maxDepth).pageReads ≤ maxDepth + 1 ∧
    (loadNextPage beh site discovered (maxDepth + k) maxDepth).pageReads = 1 := by
  refine ⟨loadNextPage_reads_le beh site (maxDepth - depth) depth discovered maxDepth le_rfl,
    ?_, ?_⟩
  · have := loadNextPage_reads_le beh site maxDepth 0 discovered maxDepth (by omega)
    simpa using this
  · have hnd : ¬(jsTruthyStr site.selectors.loadMoreLink = true ∧ maxDepth + k < maxDepth) :=
      fun h => by omega
    rw [loadNextPage.eq_def]
    simp [hnd]

/-- A behaviour with an always-present, always-visible load-more button whose
post-click wait always times out and whose page reads yield no rows — except
that from depth 1 on the button is gone, ending the crawl. -/
def behTimeout : CrawlBehavior :=
  { rowsAt := fun _ => []
    findButtonThrows := fun _ => false
    buttonFound := fun d => d == 0
    isVisibleAt := fun _ => true
    opacityPositiveAt := fun _ => true
    waitSucceeds := fun _ => false }

/-- A site configured with a load-more link and no loader selector (the
row-count wait strategy). -/
def siteLoadMore : WebsiteConfigM :=
  { url := "https://venue.test/events"
    selectors := { event := ".event", date := ".date", name := ".name",
                   loadMoreLink := some "#more" } }

/--
C4 (counterexample): at depth 0 the post-click wait times out
(`waitSucceeds 0 = false`), yet the returned site-level errors are empty —
the recorded timeout message was discarded by `errors = moreResults.errors` —
and two page reads happen, i.e. recursion did not stop at the timeout.
-/
theorem loadNextPage_timeout_counterexample :
    behTimeout.waitSucceeds 0 = false ∧
    (loadNextPage behTimeout siteLoadMore [] 0 6).errors = [] ∧
    (loadNextPage behTimeout siteLoadMore [] 0 6).pageReads = 2 := by
  have h1 : loadNextPage behTimeout siteLoadMore [] 1 6 =
      { results := [], errors := [], pageReads := 1 } := by
    rw [loadNextPage.eq_def]
    decide
  have h0 : loadNextPage behTimeout siteLoadMore [] 0 6 =
      { results := [], errors := [], pageReads := 2 } := by
    rw [loadNextPage.eq_def]
    simp only []
    rw [dif_pos (by decide : jsTruthyStr siteLoadMore.selectors.loadMoreLink = true ∧ 0 < 6)]
    rw [if_pos (by decide : (!behTimeout.findButtonThrows 0 && behTimeout.buttonFound 0) = true)]
    rw [if_pos (by decide : (behTimeout.isVisibleAt 0 && behTimeout.opacityPositiveAt 0) = true)]
    simp only [show behTimeout.rowsAt 0 = [] from rfl, List.filter_nil, List.map_nil,
      List.append_nil]
    rw [h1]
  exact ⟨rfl, by rw [h0], by rw [h0]⟩

/--
C4 (amended): when the post-click wait times out at a depth where the
load-more link is configured, the depth is not exceeded and the button is
found and visible, the timeout message is pushed onto the current pass's
local error list but recursion does not stop: the call returns exactly the
recursive call's rows and errors (with one more page read), so the recorded
timeout message is not part of the returned site-level errors, and the rows
returned are the deepest pass's — partial results are returned, not
discarded.
-/
theorem loadNextPage_timeout_recurses (beh : CrawlBehavior) (site : WebsiteConfigM)
    (discovered : List String) (depth maxDepth : Nat)
    (hlink : jsTruthyStr site.selectors.loadMoreLink = true)
    (hdepth : depth < maxDepth)
    (hnothrow : beh.findButtonThrows depth = false)
    (hfound : beh.buttonFound depth = true)
    (hvis : beh.isVisibleAt depth = true)
    (hop : beh.opacityPositiveAt depth = true)
    (_htimeout : beh.waitSucceeds depth = false) :
    loadNextPage beh site discovered depth maxDepth =
      { results := (loadNextPage beh site
          (discovered ++ ((beh.rowsAt depth).filter
            (fun event => !(discovered.contains (getEventId event)))).map getEventId)
          (depth + 1) maxDepth).results
        errors := (loadNextPage beh site
          (discovered ++ ((beh.rowsAt depth).filter
            (fun event => !(discovered.contains (getEventId event)))).map getEventId)
          (depth + 1) maxDepth).errors
        pageReads := (loadNextPage beh site
          (discovered ++ ((beh.rowsAt depth).filter
            (fun event => !(discovered.contains (getEventId event)))).map getEventId)
          (depth + 1) maxDepth).pageReads + 1 } := by
  rw [loadNextPage.eq_def]
  simp only []
  rw [dif_pos ⟨hlink, hdepth⟩]
  rw [if_pos (by simp [hnothrow, hfound])]
  rw [if_pos (by simp [hvis, hop])]

/-- Witness for C4's amended theorem at the concrete timeout behaviour. -/
theorem loadNextPage_timeout_recurses_witness :
    loadNextPage behTimeout siteLoadMore [] 0 6 =
      { results := (loadNextPage behTimeout siteLoadMore
          (([] : List String) ++ ((behTimeout.rowsAt 0).filter
            (fun event => !(List.contains [] (getEventId event)))).map getEventId)
          1 6).results
        errors := (loadNextPage behTimeout siteLoadMore
          (([] : List String) ++ ((behTimeout.rowsAt 0).filter
            (fun event => !(List.contains [] (getEventId event)))).map getEventId)
          1 6).errors
        pageReads := (loadNextPage behTimeout siteLoadMore
          (([] : List String) ++ ((behTimeout.rowsAt 0).filter
            (fun event => !(List.contains [] (getEventId event)))).map getEventId)
          1 6).pageReads + 1 } :=
  loadNextPage_timeout_recurses behTimeout siteLoadMore [] 0 6 (by decide) (by decide)
    (by decide) (by decide) (by decide) (by decide) (by decide)

/--
C6 (code bug): the snippet-extractor properties fail at the
`determineShowRelevance` call site.  The scraper calls
`findTextSnippets(description, terms)` without the required `contextLength`
argument, so `contextLength` is `undefined` and every emitted snippet is
computed as `text.slice(NaN, NaN) = ""`.  On `"a jazz night"` with term
`"jazz"` the call produces `[""]` — a non-empty result (the empty-iff-no-match
half still holds) whose only snippet contains no term of the list.  Called
with a numeric `contextLength` (as the function's signature requires),
`findTextSnippets` produces `["a jazz night"]`, which does contain the term.
-/
theorem determineShowRelevance_empty_snippets :
    determineShowRelevance ["jazz"] "a jazz night" = [""] ∧
    (∀ s ∈ determineShowRelevance ["jazz"] "a jazz night",
      strContains s "jazz" = false) ∧
    determineShowRelevance ["jazz"] "a jazz night" ≠ [] ∧
    findTextSnippets "a jazz night" ["jazz"] 50 = ["a jazz night"] ∧
    strContains "a jazz night" "jazz" = true := by
  decide

/-- A per-domain selector with a lineup configuration (the `dc9` shape). -/
def selLineup : ContentSelector :=
  { domain := "x.test", description := ".desc", lineup := some ".artistBlock a",
    artistDescription := some ".artist" }

/-- A two-page selector configuration carrying `selLineup`. -/
def selsLineup : SelectorsM :=
  { event := ".e", date := ".d", name := ".n", detailLink := some ".l",
    description := [selLineup] }

/-- An unresolved event whose detail link matches `selLineup`'s domain. -/
def eventLineup : Event :=
  { name := some "Triple Bill", date := some "May 9",
    detailLink := some "https://x.test/ev" }

/-- The spec's C9 scenario: three lineup links; link 2's fetch times out, the
other two yield artist bios; the primary description is absent. -/
def behLineup : DetailFetchBehavior :=
  { mainFetchOk := true
    description := none
    lineupLinks := [some "https://x.test/a1", some "https://x.test/a2",
      some "https://x.test/a3"]
    artistFetch := fun i =>
      if i == 1 then .failed "TimeoutError: waiting for selector failed"
      else .ok (some ("bio" ++ toString i)) }

/--
C9 (counterexample): on the spec's 3-link scenario with link 2 timing out,
processing continues (`success = true`, descriptions from links 1 and 3),
exactly one sub-error is counted and recorded — but it is appended only to
the *site-level* error list; the event-level `errors` stays `none`, so the
sub-error is not "appended to both the site-level and the event-level error
lists" as claimed.
-/
theorem lineup_failure_event_errors_counterexample :
    (getEventDetailsFromPage behLineup ["funk"] selsLineup eventLineup
        "https://x.test" [] 0).success = true ∧
    (getEventDetailsFromPage behLineup ["funk"] selsLineup eventLineup
        "https://x.test" [] 0).errorCount = 1 ∧
    (getEventDetailsFromPage behLineup ["funk"] selsLineup eventLineup
        "https://x.test" [] 0).descriptions = ["bio0", "bio2"] ∧
    (getEventDetailsFromPage behLineup ["funk"] selsLineup eventLineup
        "https://x.test" [] 0).siteErrors.length = 1 ∧
    eventLineup.errors = none ∧
    (getEventDetailsFromPage behLineup ["funk"] selsLineup eventLineup
        "https://x.test" [] 0).eventErrors = none := by
  decide

/--
C9 (amended): each lineup-link failure is non-fatal — it increments the error
count and is appended to the *site-level* error list (not the event-level
list), and neither the remaining lineup links nor the owning event are
aborted: whenever the lineup phase leaves at least one description, the fetch
succeeds, its error count is exactly the lineup phase's failure count, the
site-level errors are the incoming ones plus the lineup failure messages,
and the event-level `errors` field is unchanged.
-/
theorem lineup_failures_nonfatal (beh : DetailFetchBehavior) (genres : List String)
    (selectors : SelectorsM) (event : Event) (siteUrl : String)
    (siteErrors : List String) (index : Nat) (sel : ContentSelector)
    (hsel : findSelector selectors.description event.detailLink = some sel)
    (hmain : beh.mainFetchOk = true)
    (hdesc : 0 < (detailLineupOut beh sel event index).1.length) :
    (getEventDetailsFromPage beh genres selectors event siteUrl siteErrors
        index).success = true ∧
    (getEventDetailsFromPage beh genres selectors event siteUrl siteErrors
        index).errorCount = (detailLineupOut beh sel event index).2.2 ∧
    (getEventDetailsFromPage beh genres selectors event siteUrl siteErrors
        index).siteErrors = siteErrors ++ (detailLineupOut beh sel event index).2.1 ∧
    (getEventDetailsFromPage beh genres selectors event siteUrl siteErrors
        index).eventErrors = event.errors ∧
    (getEventDetailsFromPage beh genres selectors event siteUrl siteErrors
        index).descriptions = (detailLineupOut beh sel event index).1 := by
  unfold getEventDetailsFromPage
  rw [hsel]
  simp only [hmain, if_true]
  rw [if_pos (by omega : (detailLineupOut beh sel event index).1.length > 0)]
  exact ⟨rfl, rfl, rfl, rfl, rfl⟩

/-- Witness for C9's amended theorem on the concrete 3-link scenario. -/
theorem lineup_failures_nonfatal_witness :
    (getEventDetailsFromPage behLineup ["funk"] selsLineup eventLineup
        "https://x.test" [] 0).success = true ∧
    (getEventDetailsFromPage behLineup ["funk"] selsLineup eventLineup
        "https://x.test" [] 0).errorCount =
      (detailLineupOut behLineup selLineup eventLineup 0).2.2 ∧
    (getEventDetailsFromPage behLineup ["funk"] selsLineup eventLineup
        "https://x.test" [] 0).siteErrors =
      [] ++ (detailLineupOut behLineup selLineup eventLineup 0).2.1 ∧
    (getEventDetailsFromPage behLineup ["funk"] selsLineup eventLineup
        "https://x.test" [] 0).eventErrors = eventLineup.errors ∧
    (getEventDetailsFromPage behLineup ["funk"] selsLineup eventLineup
        "https://x.test" [] 0).descriptions =
      (detailLineupOut behLineup selLineup eventLineup 0).1 :=
  lineup_failures_nonfatal behLineup ["funk"] selsLineup eventLineup
    "https://x.test" [] 0 selLineup (by decide) (by decide) (by decide)

/-- A detail fetch whose navigation/selector wait throws after the page
context was opened. -/
def behDetailThrow : DetailFetchBehavior :=
  { mainFetchOk := false
    mainFetchError := "TimeoutError: waiting for selector .desc failed" }

/--
C10 (code bug): the detail fetch does not release its page context on the
thrown-error exit path.  With a behaviour whose navigation/wait throws after
`browser.newPage()`, the operation opens one page context and closes none:
in the source, `page` is declared inside the `try` block and the `catch`
performs no `close` (and there is no `finally`), so the context leaks.  (The
summary harvest `getEventSummariesFromWebsite` does close its page in a
`finally`; the leak is specific to `getEventDetailsFromPage`.)
-/
theorem detail_fetch_page_leak :
    (getEventDetailsFromPage behDetailThrow ["funk"] selsLineup eventLineup
        "https://x.test" [] 0).pagesOpened = 1 ∧
    (getEventDetailsFromPage behDetailThrow ["funk"] selsLineup eventLineup
        "https://x.test" [] 0).pagesClosed = 0 ∧
    (getEventDetailsFromPage behDetailThrow ["funk"] selsLineup eventLineup
        "https://x.test" [] 0).eventErrors =
      some ["TimeoutError: waiting for selector .desc failed"] := by
  decide
